import Mathlib

/-!
Verification development for the FinancialDashboard sync engine.

Shallow embedding of the repository's credential vault (`utils/encryption.py`),
persistent store (`database/db_manager.py`), token manager
(`bank_integration/auth_manager.py`) and transaction sync engine
(`bank_integration/transaction_manager.py`).

Modelling conventions:
* timestamps are seconds since an epoch, as `Int`; `timedelta(days = n)` is
  `n * 86400`; `datetime.now()` is passed in explicitly as `now`;
* monetary amounts (Python floats) are `Rat`; the only float operations the
  code performs on them are sign tests, negation and magnitude, which are
  exact in both representations;
* `uuid.uuid4()` draws are an explicit input (`uuids : Nat → String`, one
  draw per fetched row), making the source's nondeterminism visible;
* a sqlite-level exception inside `save_transaction` (caught there, making it
  return `False`) is an explicit input (`sqliteFailures : List Bool`, one
  flag per saved row); a failed save leaves the store unchanged;
* the Fernet primitive of the `cryptography` package (third-party, not part
  of the repository) is modelled as an idealized authenticated symmetric
  scheme: the ciphertext is a key-tagged encoding of the plaintext, so that
  decryption under the producing key inverts encryption and decryption under
  any other key fails, per the library's documented contract.
-/

namespace FinDash

/-- Idealized Fernet ciphertext body parser: a ciphertext is
`'g'`, then the key written in unary as `'A'`s, then `':'`, then the payload.
Parsing succeeds only when the embedded key tag matches the decryption key,
which models the HMAC verification of real Fernet. -/
def fernetParse (key : Nat) : List Char → Option (List Char)
  | 'g' :: rest =>
    let tag := rest.takeWhile (fun c => c == 'A')
    match rest.drop tag.length with
    | ':' :: payload => if tag.length = key then some payload else none
    | _ => none
  | _ => none

/-- Idealized `Fernet(key).encrypt`: key-tagged injective encoding. -/
def fernetEncrypt (key : Nat) (msg : String) : String :=
  String.mk ('g' :: (List.replicate key 'A' ++ ':' :: msg.data))

/-- Idealized `Fernet(key).decrypt`: inverts `fernetEncrypt` under the same
key, fails (`none`, the model of `InvalidToken`) under any other key. -/
def fernetDecrypt (key : Nat) (ct : String) : Option String :=
  (fernetParse key ct.data).map (fun l => String.mk l)

/-- The repository's `encrypt` (src/utils/encryption.py, lines 50-78): wraps
`fernet.encrypt` on the process-wide key. Callers in the repository always
pass strings, so the `str()` coercion branch is not exercised. -/
def encrypt (key : Nat) (data : String) : String :=
  fernetEncrypt key data

/-- The repository's `decrypt` (src/utils/encryption.py, lines 80-103): wraps
`fernet.decrypt`; a failure of the primitive is re-raised as
`ValueError("Unable to decrypt data: ...")`, modelled as `Except.error`. -/
def decrypt (key : Nat) (data : String) : Except String String :=
  match fernetDecrypt key data with
  | some plain => Except.ok plain
  | none => Except.error "Unable to decrypt data"

/-- A raw provider transaction: one row of the DataFrame
`truelayer_api.get_transactions` returns. Every field the sync loop reads
through `row.get(...)` is optional, matching a possibly missing column. -/
structure RawTxn where
  transaction_id : Option String
  amount : Option Rat
  description : Option String
  category : Option String
  timestamp : Option String
  currency : Option String
deriving DecidableEq

/-- A row of the `transactions` table (src/database/db_manager.py, lines
88-104). `transaction_id` is the PRIMARY KEY. The sync engine always supplies
every column, so the dict-default branches of `save_transaction` (missing
currency/category) are not exercised; `transaction_data` holds the raw
provider payload. -/
structure TransactionRow where
  transaction_id : String
  account_id : String
  user_id : String
  date : String
  description : String
  amount : Rat
  currency : String
  type : String
  category : String
  transaction_data : Option RawTxn
deriving DecidableEq

/-- A row of the `bank_connections` table (lines 54-66). `connection_id` is
the PRIMARY KEY; token columns hold Fernet ciphertext (or NULL). -/
structure ConnectionRow where
  connection_id : String
  user_id : String
  provider : String
  access_token : Option String
  refresh_token : Option String
  token_expiry : Option Int
  last_sync : Option Int
deriving DecidableEq

/-- The relational store, restricted to the two tables the claims touch. -/
structure DB where
  connections : List ConnectionRow
  transactions : List TransactionRow
deriving DecidableEq

/-- The account dict fields `sync_account_transactions` reads. -/
structure Account where
  account_id : String
  connection_id : String
  user_id : String
deriving DecidableEq

/-- A provider `/token` response as `refresh_access_token` returns it;
`none` models an absent key (`dict.get` misses). -/
structure TokenResponse where
  access_token : Option String
  refresh_token : Option String
  expires_in : Nat
deriving DecidableEq

/-- `DatabaseManager.save_transaction` (lines 524-594): `INSERT OR REPLACE
INTO transactions` keyed on the `transaction_id` PRIMARY KEY — the conflicting
row, category column included, is replaced whole. `sqliteFails` models a
sqlite-level exception, which the function catches and turns into `False`
with the store unchanged. -/
def save_transaction (sqliteFails : Bool) (db : DB) (t : TransactionRow) :
    Bool × DB :=
  if sqliteFails then (false, db)
  else
    (true, { db with transactions :=
      db.transactions.filter (fun r => decide (r.transaction_id ≠ t.transaction_id))
        ++ [t] })

/-- `DatabaseManager.save_transactions` (lines 596-615): saves each
transaction in order, counting the saves that returned `True`; a failed save
does not stop the loop. The failure flags are consumed positionally
(`headD false`: no flag means the sqlite layer does not fail). -/
def save_transactions : List Bool → DB → List TransactionRow → Nat × DB
  | _, db, [] => (0, db)
  | oracle, db, t :: ts =>
    let first := save_transaction (oracle.headD false) db t
    let rest := save_transactions oracle.tail first.2 ts
    (if first.1 then rest.1 + 1 else rest.1, rest.2)

/-- `DatabaseManager.update_connection_sync_time` (lines 298-329):
`UPDATE bank_connections SET last_sync = ? WHERE connection_id = ?`. -/
def update_connection_sync_time (db : DB) (connection_id : String)
    (sync_time : Int) : DB :=
  { db with connections := db.connections.map (fun r =>
      if r.connection_id = connection_id then { r with last_sync := some sync_time }
      else r) }

/-- `DatabaseManager.save_bank_connection` (lines 159-208): encrypts both
tokens, then `INSERT OR REPLACE INTO bank_connections (connection_id,
user_id, provider, access_token, refresh_token, token_expiry)`. The replace
rewrites the whole row, so the unlisted `last_sync` column falls back to its
column default, NULL. The `users` table upsert is not modelled. -/
def save_bank_connection (key : Nat) (db : DB) (user_id connection_id provider : String)
    (accessToken : String) (refreshToken : Option String) (expiry : Option Int) : DB :=
  { db with connections :=
      db.connections.filter (fun r => decide (r.connection_id ≠ connection_id)) ++
      [{ connection_id := connection_id, user_id := user_id, provider := provider,
         access_token := some (encrypt key accessToken),
         refresh_token := refreshToken.map (encrypt key),
         token_expiry := expiry, last_sync := none }] }

/-- Decryption of one token column as `get_bank_connection` performs it:
a truthy stored value is decrypted (a decryption failure raises, which the
surrounding handler turns into returning `None`, modelled as the outer
`none`); NULL or the empty string is passed through. -/
def decryptColumn (key : Nat) (v : Option String) : Option (Option String) :=
  match v with
  | none => some none
  | some ct =>
    if ct = "" then some (some ct)
    else
      match fernetDecrypt key ct with
      | some plain => some (some plain)
      | none => none

/-- `DatabaseManager.get_bank_connection` (lines 210-257), the
`connection_id` branch the sync engine uses: the stored row with both token
columns decrypted, or `none` when the row is absent or a token fails to
decrypt. -/
def get_bank_connection (key : Nat) (db : DB) (connection_id : String) :
    Option ConnectionRow :=
  match db.connections.find? (fun r => decide (r.connection_id = connection_id)) with
  | none => none
  | some row =>
    match decryptColumn key row.access_token, decryptColumn key row.refresh_token with
    | some a, some r => some { row with access_token := a, refresh_token := r }
    | _, _ => none

/-- Token expiry as `refresh_connection_token` computes it (auth_manager.py,
lines 170-171): `now + timedelta(seconds=expires_in) if expires_in else None`. -/
def expiryOf (expires_in : Nat) (now : Int) : Option Int :=
  if expires_in ≠ 0 then some (now + (expires_in : Int)) else none

/-- `refresh_connection_token` (src/bank_integration/auth_manager.py, lines
131-192). Reads the connection, requires a truthy stored refresh token, calls
the provider (`resp`; `none` is a failed refresh), requires a truthy new
access token, falls back to the previous refresh token when the response
carries none (`dict.get` default), persists through `save_bank_connection`
and returns the updated connection dict. Every failure path leaves the store
untouched and returns `none`. -/
def refresh_connection_token (key : Nat) (resp : Option TokenResponse) (now : Int)
    (db : DB) (connection_id : String) : Option ConnectionRow × DB :=
  match get_bank_connection key db connection_id with
  | none => (none, db)
  | some connection =>
    match connection.refresh_token with
    | none => (none, db)
    | some refreshTok =>
      if refreshTok = "" then (none, db)
      else
        match resp with
        | none => (none, db)
        | some tokenResponse =>
          match tokenResponse.access_token with
          | none => (none, db)
          | some accessTok =>
            if accessTok = "" then (none, db)
            else
              let newRefresh := tokenResponse.refresh_token.getD refreshTok
              let expiry := expiryOf tokenResponse.expires_in now
              let db2 := save_bank_connection key db connection.user_id connection_id
                connection.provider accessTok (some newRefresh) expiry
              let updated := { connection with
                access_token := some accessTok
                refresh_token := some newRefresh
                token_expiry := expiry }
              (some updated, db2)

/-- One day of seconds: `timedelta(days=1)`. -/
def daySeconds : Int := 86400

/-- The sync window's start (transaction_manager.py, lines 40-51): a forced
sync goes a year back from now; otherwise a recorded `last_sync` goes seven
days back from it, and a first-ever sync ninety days back from now. -/
def computeFromDate (force_full_sync : Bool) (last_sync : Option Int) (now : Int) : Int :=
  if force_full_sync then now - 365 * daySeconds
  else
    match last_sync with
    | some lastSyncDt => lastSyncDt - 7 * daySeconds
    | none => now - 90 * daySeconds

/-- The `[from_date, to_date]` pair `sync_account_transactions` requests
(lines 40-53): `to_date = datetime.now()`. -/
def syncWindow (force_full_sync : Bool) (last_sync : Option Int) (now : Int) :
    Int × Int :=
  (computeFromDate force_full_sync last_sync now, now)

/-- Python's `str.lower()`, character by character (the descriptions and
categories involved are ASCII). -/
def toLowerStr (s : String) : String :=
  String.mk (s.data.map Char.toLower)

/-- Python's `needle in haystack` on character lists. -/
def occursIn (needle : List Char) : List Char → Bool
  | [] => needle.isEmpty
  | c :: rest => needle.isPrefixOf (c :: rest) || occursIn needle rest

/-- `any(keyword in description for keyword in [...])`. -/
def anyKeyword (description : String) (keywords : List String) : Bool :=
  keywords.any (fun k => occursIn k.data description.data)

/-- The keyword heuristic of lines 104-122, applied to the lower-cased
description when the provider supplied no truthy category. -/
def autoCategory (descriptionOpt : Option String) : String :=
  let description := toLowerStr (descriptionOpt.getD "")
  if anyKeyword description ["salary", "payroll", "wage"] then "income"
  else if anyKeyword description ["grocery", "food", "supermarket"] then "groceries"
  else if anyKeyword description ["restaurant", "cafe", "takeaway"] then "dining"
  else if anyKeyword description ["uber", "taxi", "transport", "tube", "train"] then
    "transport"
  else if anyKeyword description ["amazon", "ebay", "shopping"] then "shopping"
  else if anyKeyword description ["rent", "mortgage", "housing"] then "housing"
  else if anyKeyword description
    ["utility", "electricity", "gas", "water", "internet"] then "utilities"
  else "uncategorized"

/-- Category assignment of lines 100-122: a truthy provider category is
lower-cased and kept, anything else goes through the heuristic. -/
def rowCategory (raw : RawTxn) : String :=
  match raw.category with
  | some c => if c = "" then autoCategory raw.description else toLowerStr c
  | none => autoCategory raw.description

/-- Stand-in for `datetime.now().isoformat()` used as the default `date`. -/
def isoformat (t : Int) : String :=
  toString t

/-- The per-row processing of the sync loop (lines 89-136): derive the stored
transaction id (`row.get("transaction_id") or str(uuid.uuid4())` — a falsy
provider id falls back to the fresh random draw `freshUuid`), derive the type
from the sign, store the magnitude, categorize, and assemble the row. -/
def processRaw (account : Account) (now : Int) (freshUuid : String) (raw : RawTxn) :
    TransactionRow :=
  let transaction_id :=
    match raw.transaction_id with
    | some t => if t = "" then freshUuid else t
    | none => freshUuid
  let amount := raw.amount.getD 0
  let transaction_type := if amount < 0 then "expense" else "income"
  { transaction_id := transaction_id,
    account_id := account.account_id,
    user_id := account.user_id,
    date := raw.timestamp.getD (isoformat now),
    description := raw.description.getD "",
    amount := if amount < 0 then -amount else amount,
    currency := raw.currency.getD "GBP",
    type := transaction_type,
    category := rowCategory raw,
    transaction_data := some raw }

/-- The sync loop over the fetched rows, pairing row `i` with the uuid draw
it would consume. -/
def processFrom (account : Account) (now : Int) (uuids : Nat → String) :
    Nat → List RawTxn → List TransactionRow
  | _, [] => []
  | i, raw :: rest =>
    processRaw account now (uuids i) raw :: processFrom account now uuids (i + 1) rest

/-- The ambient inputs of one `sync_account_transactions` call: the clock,
the random uuid draws, the sqlite failure flags, the provider's transaction
listing for a requested window, and the provider's reply to a token refresh,
should one be attempted. -/
structure SyncEnv where
  now : Int
  uuids : Nat → String
  sqliteFailures : List Bool
  fetch : Int → Int → List RawTxn
  refreshResponse : Option TokenResponse

/-- The token-expiry check of lines 55-67: an expiry at or before now forces
a refresh; a failed refresh aborts the sync (`none`), a successful one
rebinds the connection and the store. -/
def tokenStep (key : Nat) (env : SyncEnv) (db : DB) (connection_id : String)
    (connection : ConnectionRow) : Option (ConnectionRow × DB) :=
  match connection.token_expiry with
  | some expiry =>
    if expiry ≤ env.now then
      match refresh_connection_token key env.refreshResponse env.now db connection_id with
      | (some refreshed, db2) => some (refreshed, db2)
      | (none, _) => none
    else some (connection, db)
  | none => some (connection, db)

/-- `sync_account_transactions` (src/bank_integration/transaction_manager.py,
lines 16-153): load the connection, compute the window, ensure a live token,
fetch, and either record an empty sync (watermark still advanced) or process
every row, save the batch, advance the watermark and report
`(True, num_saved)`. Failure paths return `(False, 0)` with the store as the
failed step left it. -/
def sync_account_transactions (key : Nat) (env : SyncEnv) (db : DB)
    (account : Account) (force_full_sync : Bool) : (Bool × Nat) × DB :=
  match get_bank_connection key db account.connection_id with
  | none => ((false, 0), db)
  | some connection =>
    let window := syncWindow force_full_sync connection.last_sync env.now
    match tokenStep key env db account.connection_id connection with
    | none => ((false, 0), db)
    | some stepped =>
      let db2 := stepped.2
      let fetched := env.fetch window.1 window.2
      if fetched.isEmpty then
        ((true, 0), update_connection_sync_time db2 account.connection_id env.now)
      else
        let transactions_list := processFrom account env.now env.uuids 0 fetched
        if transactions_list.isEmpty then ((true, 0), db2)
        else
          let saved := save_transactions env.sqliteFailures db2 transactions_list
          let db3 := update_connection_sync_time saved.2 account.connection_id env.now
          ((true, saved.1), db3)

/-! Concrete fixtures used by the counterexample and witness theorems. -/

/-- Fixture: the account under sync. -/
def acct1 : Account :=
  { account_id := "a1", connection_id := "c1", user_id := "u1" }

/-- Fixture: a bare connection row (no tokens, no expiry, never synced). -/
def connBare : ConnectionRow :=
  { connection_id := "c1", user_id := "u1", provider := "TrueLayer",
    access_token := none, refresh_token := none,
    token_expiry := none, last_sync := none }

/-- Fixture: store holding only the bare connection. -/
def dbSync0 : DB :=
  { connections := [connBare], transactions := [] }

/-- Fixture: store whose connection has already synced at time 1000. -/
def dbSync1 : DB :=
  { connections := [{ connBare with last_sync := some 1000 }], transactions := [] }

/-- Fixture: a raw transaction the provider returned without a
`transaction_id`. -/
def rawNoId : RawTxn :=
  { transaction_id := none, amount := some (-10), description := some "zzz",
    category := none, timestamp := some "2024-01-01T00:00:00",
    currency := some "GBP" }

/-- Fixture: a sync call whose uuid4 draws all come out as `uuid-A`. -/
def envA : SyncEnv :=
  { now := 1000, uuids := fun _ => "uuid-A", sqliteFailures := [],
    fetch := fun _ _ => [rawNoId], refreshResponse := none }

/-- Fixture: the same provider response, with later uuid4 draws `uuid-B`. -/
def envB : SyncEnv :=
  { now := 1000, uuids := fun _ => "uuid-B", sqliteFailures := [],
    fetch := fun _ _ => [rawNoId], refreshResponse := none }

/-- Fixture: first raw transaction of a two-element batch. -/
def rawT1 : RawTxn :=
  { transaction_id := some "t1", amount := some (-5), description := some "zzz",
    category := none, timestamp := some "2024-01-02T00:00:00",
    currency := some "GBP" }

/-- Fixture: second raw transaction of the batch. -/
def rawT2 : RawTxn :=
  { transaction_id := some "t2", amount := some 7, description := some "zzz",
    category := none, timestamp := some "2024-01-03T00:00:00",
    currency := some "GBP" }

/-- Fixture: a sync call at time 2000 whose first `save_transaction` hits a
sqlite failure while the second succeeds. -/
def envC : SyncEnv :=
  { now := 2000, uuids := fun _ => "unused-uuid", sqliteFailures := [true],
    fetch := fun _ _ => [rawT1, rawT2], refreshResponse := none }

/-- Fixture: a stored transaction whose category a user has edited. -/
def userEditedRow : TransactionRow :=
  { transaction_id := "t9", account_id := "a1", user_id := "u1",
    date := "2024-01-01T00:00:00", description := "gym", amount := 20,
    currency := "GBP", type := "expense", category := "fitness-user-set",
    transaction_data := none }

/-- Fixture: the provider re-observes transaction `t9` (no category). -/
def rawT9 : RawTxn :=
  { transaction_id := some "t9", amount := some (-20), description := some "gym",
    category := none, timestamp := some "2024-01-05T00:00:00",
    currency := some "GBP" }

/-- Fixture: store with the user-edited row. -/
def dbCat0 : DB :=
  { connections := [connBare], transactions := [userEditedRow] }

/-- Fixture: a later sync that re-fetches `t9`. -/
def envD : SyncEnv :=
  { now := 3000, uuids := fun _ => "unused-uuid", sqliteFailures := [],
    fetch := fun _ _ => [rawT9], refreshResponse := none }

/-- Fixture: a sync call whose fetch comes back empty. -/
def envE : SyncEnv :=
  { now := 4000, uuids := fun _ => "unused-uuid", sqliteFailures := [],
    fetch := fun _ _ => [], refreshResponse := none }

/-- Fixture: a connection row as stored, tokens encrypted under key 1,
synced last at time 100. -/
def connStored : ConnectionRow :=
  { connection_id := "c1", user_id := "u1", provider := "TrueLayer",
    access_token := some (encrypt 1 "at0"),
    refresh_token := some (encrypt 1 "rt0"),
    token_expiry := some 9999, last_sync := some 100 }

/-- Fixture: store holding the encrypted connection. -/
def dbRefresh0 : DB :=
  { connections := [connStored], transactions := [] }

/-- Fixture: the decrypted dict `get_bank_connection` yields for
`connStored`. -/
def connDec0 : ConnectionRow :=
  { connStored with access_token := some "at0", refresh_token := some "rt0" }

/-- Fixture: a refresh response that carries no new refresh token. -/
def resp0 : TokenResponse :=
  { access_token := some "newat", refresh_token := none, expires_in := 3600 }

/-! Library facts about the Fernet model. -/

theorem takeWhile_replicate_A (k : Nat) (l : List Char) :
    ((List.replicate k 'A' ++ ':' :: l).takeWhile (fun c => c == 'A')) =
      List.replicate k 'A' := by
  induction k with
  | zero => rfl
  | succ n ih =>
    show 'A' :: ((List.replicate n 'A' ++ ':' :: l).takeWhile (fun c => c == 'A')) =
      'A' :: List.replicate n 'A'
    exact congrArg (fun t => 'A' :: t) ih

theorem drop_replicate_append (k : Nat) (c : Char) (l : List Char) :
    (List.replicate k c ++ l).drop k = l := by
  induction k with
  | zero => rfl
  | succ n ih => exact ih

theorem fernetParse_fernetEncrypt (k k' : Nat) (l : List Char) :
    fernetParse k' ('g' :: (List.replicate k 'A' ++ ':' :: l)) =
      if k = k' then some l else none := by
  simp only [fernetParse, takeWhile_replicate_A, List.length_replicate,
    drop_replicate_append]

theorem fernetDecrypt_fernetEncrypt (k k' : Nat) (m : String) :
    fernetDecrypt k' (fernetEncrypt k m) = if k = k' then some m else none := by
  unfold fernetDecrypt fernetEncrypt
  rw [show (String.mk ('g' :: (List.replicate k 'A' ++ ':' :: m.data))).data =
      'g' :: (List.replicate k 'A' ++ ':' :: m.data) from rfl]
  rw [fernetParse_fernetEncrypt]
  by_cases h : k = k'
  · simp [h]
  · simp [h]

theorem encrypt_ne_plaintext (k : Nat) (s : String) : encrypt k s ≠ s := by
  intro h
  have h2 : ('g' :: (List.replicate k 'A' ++ ':' :: s.data)).length = s.data.length :=
    congrArg (fun t : String => t.data.length) h
  simp only [List.length_cons, List.length_append, List.length_replicate] at h2
  omega

theorem processRaw_amount (account : Account) (now : Int) (freshUuid : String)
    (raw : RawTxn) :
    (processRaw account now freshUuid raw).amount =
      if raw.amount.getD 0 < 0 then -(raw.amount.getD 0) else raw.amount.getD 0 :=
  rfl

theorem processRaw_type (account : Account) (now : Int) (freshUuid : String)
    (raw : RawTxn) :
    (processRaw account now freshUuid raw).type =
      if raw.amount.getD 0 < 0 then "expense" else "income" :=
  rfl

/-! Claim theorems. -/

/-- C1 (code bug): syncing the very same provider response twice is NOT an
update of the existing row when the raw transaction carries no provider id:
each run draws a fresh random uuid, so the second run inserts a second row
for the same raw transaction (same amount and description, different
`transaction_id`) instead of updating the first. -/
theorem sync_twice_duplicates_rows_without_provider_id :
    ((sync_account_transactions 0 envB
        (sync_account_transactions 0 envA dbSync0 acct1 false).2
        acct1 false).2.transactions.map
      (fun t => (t.transaction_id, t.amount, t.description))) =
    [("uuid-A", 10, "zzz"), ("uuid-B", 10, "zzz")] := by
  decide

/-- C2 (code bug): when saving transaction 1 of 2 fails, the sync still
reports success with one row saved, and still advances the connection's
`last_sync` from 1000 to 2000 — the failed row `t1` is simply lost to the
next incremental window. -/
theorem partial_batch_failure_still_advances_watermark :
    (sync_account_transactions 0 envC dbSync1 acct1 false).1 = (true, 1) ∧
    ((sync_account_transactions 0 envC dbSync1 acct1 false).2.connections.map
      (fun r => r.last_sync)) = [some 2000] ∧
    ((sync_account_transactions 0 envC dbSync1 acct1 false).2.transactions.map
      (fun t => t.transaction_id)) = ["t2"] ∧
    dbSync1.connections.map (fun r => r.last_sync) = [some 1000] := by
  decide

/-- C3 (code bug): for a raw transaction with no provider-supplied id, the
stored `transaction_id` is the fresh `uuid.uuid4()` draw, not a function of
the stable fields: processing the identical raw transaction (same date,
description, amount and account) under two different draws yields two
different ids. -/
theorem missing_provider_id_is_randomized_not_derived :
    (processRaw acct1 1000 "uuid-A" rawNoId).transaction_id ≠
      (processRaw acct1 1000 "uuid-B" rawNoId).transaction_id := by
  decide

/-- C4 (code bug): a sync that re-observes transaction `t9` rewrites the
whole row via `INSERT OR REPLACE`, clobbering the user-edited category
`fitness-user-set` with the freshly computed `uncategorized`. -/
theorem resync_overwrites_user_edited_category :
    dbCat0.transactions.map (fun t => (t.transaction_id, t.category)) =
      [("t9", "fitness-user-set")] ∧
    ((sync_account_transactions 0 envD dbCat0 acct1 false).2.transactions.map
      (fun t => (t.transaction_id, t.category))) = [("t9", "uncategorized")] := by
  decide

/-- C5: the sync window is `[now - 365d, now]` under `force_full_sync`,
`[last_sync - 7d, now]` when a watermark exists, and `[now - 90d, now]` on a
first sync. -/
theorem sync_window_policy :
    (∀ last_sync now, syncWindow true last_sync now =
      (now - 365 * daySeconds, now)) ∧
    (∀ t now, syncWindow false (some t) now = (t - 7 * daySeconds, now)) ∧
    (∀ now, syncWindow false none now = (now - 90 * daySeconds, now)) :=
  ⟨fun _ _ => rfl, fun _ _ => rfl, fun _ => rfl⟩

/-- C6: every processed transaction stores the non-negative magnitude of the
raw amount, and the type follows the raw sign — strictly negative raw amounts
become `expense`, all others (the strictly positive ones of the claim
included) become `income`. -/
theorem sign_normalization (account : Account) (now : Int) (freshUuid : String)
    (raw : RawTxn) :
    0 ≤ (processRaw account now freshUuid raw).amount ∧
    (processRaw account now freshUuid raw).amount = |raw.amount.getD 0| ∧
    (processRaw account now freshUuid raw).type =
      (if raw.amount.getD 0 < 0 then "expense" else "income") := by
  refine ⟨?_, ?_, processRaw_type account now freshUuid raw⟩
  · rw [processRaw_amount]
    by_cases h : raw.amount.getD 0 < 0
    · rw [if_pos h]
      linarith
    · rw [if_neg h]
      exact le_of_not_lt h
  · rw [processRaw_amount]
    by_cases h : raw.amount.getD 0 < 0
    · rw [if_pos h, abs_of_neg h]
    · rw [if_neg h, abs_of_nonneg (le_of_not_lt h)]

/-- C8: decrypting under the producing key inverts encryption for every
token string, and decrypting under any other key yields the decryption
error, never a string. -/
theorem encryption_roundtrip_and_key_separation :
    (∀ key x, decrypt key (encrypt key x) = Except.ok x) ∧
    (∀ key key2 x, key ≠ key2 →
      decrypt key2 (encrypt key x) = Except.error "Unable to decrypt data") := by
  constructor
  · intro key x
    unfold decrypt encrypt
    rw [fernetDecrypt_fernetEncrypt, if_pos rfl]
  · intro key key2 x h
    unfold decrypt encrypt
    rw [fernetDecrypt_fernetEncrypt, if_neg h]

theorem get_bank_connection_mem (key : Nat) (db : DB) (cid : String)
    (conn : ConnectionRow) (h : get_bank_connection key db cid = some conn) :
    ∃ row, row ∈ db.connections ∧ row.connection_id = cid := by
  unfold get_bank_connection at h
  cases hf : db.connections.find? (fun r => decide (r.connection_id = cid)) with
  | none => rw [hf] at h; exact absurd h (by simp)
  | some row =>
    have hp := List.find?_some hf
    simp only [decide_eq_true_eq] at hp
    exact ⟨row, List.mem_of_find?_eq_some hf, hp⟩

theorem refresh_connection_token_mem (key : Nat) (resp : Option TokenResponse)
    (now : Int) (db : DB) (cid : String)
    (h : ∃ row, row ∈ db.connections ∧ row.connection_id = cid) :
    ∃ row, row ∈ (refresh_connection_token key resp now db cid).2.connections ∧
      row.connection_id = cid := by
  unfold refresh_connection_token
  repeat' split
  all_goals
    first
      | exact h
      | exact ⟨_, List.mem_append_right _ (List.mem_singleton_self _), rfl⟩

theorem tokenStep_mem (key : Nat) (env : SyncEnv) (db : DB) (cid : String)
    (connection refreshed : ConnectionRow) (db2 : DB)
    (h : ∃ row, row ∈ db.connections ∧ row.connection_id = cid)
    (hstep : tokenStep key env db cid connection = some (refreshed, db2)) :
    ∃ row, row ∈ db2.connections ∧ row.connection_id = cid := by
  unfold tokenStep at hstep
  split at hstep
  · split at hstep
    · split at hstep
      · rename_i heq
        simp only [Option.some.injEq, Prod.mk.injEq] at hstep
        obtain ⟨-, h2⟩ := hstep
        subst h2
        have hmem := refresh_connection_token_mem key env.refreshResponse env.now db cid h
        rw [heq] at hmem
        exact hmem
      · exact absurd hstep (by simp)
    · simp only [Option.some.injEq, Prod.mk.injEq] at hstep
      obtain ⟨-, h2⟩ := hstep
      subst h2
      exact h
  · simp only [Option.some.injEq, Prod.mk.injEq] at hstep
    obtain ⟨-, h2⟩ := hstep
    subst h2
    exact h

theorem update_connection_sync_time_mem (db : DB) (cid : String) (t : Int)
    (h : ∃ row, row ∈ db.connections ∧ row.connection_id = cid) :
    ∃ row, row ∈ (update_connection_sync_time db cid t).connections ∧
      row.connection_id = cid ∧ row.last_sync = some t := by
  obtain ⟨row, hmem, hid⟩ := h
  refine ⟨{ row with last_sync := some t }, ?_, hid, rfl⟩
  unfold update_connection_sync_time
  have himg : (fun r : ConnectionRow =>
      if r.connection_id = cid then { r with last_sync := some t } else r) row =
      { row with last_sync := some t } := by simp [hid]
  rw [← himg]
  exact List.mem_map_of_mem _ hmem

/-- C7: a sync whose fetch comes back empty still reports success with zero
transactions and still advances the connection's `last_sync` watermark to
now. Hypotheses: the connection loads, and the token check passes (either
not expired, leaving the store alone, or refreshed successfully). -/
theorem empty_fetch_still_updates_watermark (key : Nat) (env : SyncEnv)
    (db : DB) (account : Account) (force_full_sync : Bool)
    (connection refreshed : ConnectionRow) (db2 : DB)
    (hconn : get_bank_connection key db account.connection_id = some connection)
    (hstep : tokenStep key env db account.connection_id connection =
      some (refreshed, db2))
    (hfetch : env.fetch (computeFromDate force_full_sync connection.last_sync env.now)
      env.now = []) :
    sync_account_transactions key env db account force_full_sync =
      ((true, 0), update_connection_sync_time db2 account.connection_id env.now) ∧
    ∃ row, row ∈ (sync_account_transactions key env db account
        force_full_sync).2.connections ∧
      row.connection_id = account.connection_id ∧ row.last_sync = some env.now := by
  have h1 : sync_account_transactions key env db account force_full_sync =
      ((true, 0), update_connection_sync_time db2 account.connection_id env.now) := by
    simp only [sync_account_transactions, hconn, hstep, syncWindow, hfetch,
      List.isEmpty_nil, if_true]
  refine ⟨h1, ?_⟩
  rw [h1]
  exact update_connection_sync_time_mem db2 account.connection_id env.now
    (tokenStep_mem key env db account.connection_id connection refreshed db2
      (get_bank_connection_mem key db account.connection_id connection hconn) hstep)

/-- C7 witness: concrete empty-fetch sync at time 4000 on the bare
connection. -/
theorem empty_fetch_still_updates_watermark_witness :
    sync_account_transactions 0 envE dbSync0 acct1 false =
      ((true, 0), update_connection_sync_time dbSync0 acct1.connection_id envE.now) ∧
    ∃ row, row ∈ (sync_account_transactions 0 envE dbSync0 acct1
        false).2.connections ∧
      row.connection_id = acct1.connection_id ∧ row.last_sync = some envE.now :=
  empty_fetch_still_updates_watermark 0 envE dbSync0 acct1 false connBare connBare
    dbSync0 (by decide) (by decide) (by decide)

theorem update_preserves_token_columns (l : List ConnectionRow) (cid : String)
    (t : Int) :
    (l.map (fun r => if r.connection_id = cid then { r with last_sync := some t }
        else r)).map (fun r => (r.access_token, r.refresh_token)) =
      l.map (fun r => (r.access_token, r.refresh_token)) := by
  induction l with
  | nil => rfl
  | cons a l ih =>
    simp only [List.map_cons, ih]
    by_cases h : a.connection_id = cid
    · simp [h]
    · simp [h]

/-- C9: persisting a connection stores only ciphertext in the token columns:
`save_bank_connection` writes `encrypt key` of each supplied token (a missing
refresh token stays NULL), ciphertext never equals any plaintext, and the
only other write to `bank_connections` (the `last_sync` update) leaves the
token columns untouched. -/
theorem connection_tokens_never_stored_plaintext :
    (∀ key db user_id cid provider accessToken refreshToken expiry,
      (save_bank_connection key db user_id cid provider accessToken refreshToken
          expiry).connections =
        db.connections.filter (fun r => decide (r.connection_id ≠ cid)) ++
        [{ connection_id := cid
           user_id := user_id
           provider := provider
           access_token := some (encrypt key accessToken)
           refresh_token := refreshToken.map (encrypt key)
           token_expiry := expiry
           last_sync := none }]) ∧
    (∀ key s, encrypt key s ≠ s) ∧
    (∀ db cid t,
      (update_connection_sync_time db cid t).connections.map
          (fun r => (r.access_token, r.refresh_token)) =
        db.connections.map (fun r => (r.access_token, r.refresh_token))) :=
  ⟨fun _ _ _ _ _ _ _ _ => rfl, encrypt_ne_plaintext,
    fun db cid t => update_preserves_token_columns db.connections cid t⟩

/-- C10 counterexample: re-persisting on refresh does not replace only the
access token and expiry — the `INSERT OR REPLACE` rewrites the whole row, so
the stored `last_sync` (100 before the refresh) is reset to NULL. -/
theorem refresh_resets_stored_last_sync :
    ¬ ((refresh_connection_token 1 (some resp0) 5000 dbRefresh0 "c1").2.connections.map
        (fun r => r.last_sync) =
      dbRefresh0.connections.map (fun r => r.last_sync)) := by
  decide

/-- C10 as amended: when the refresh response carries no `refresh_token`,
the connection keeps its previous refresh token — returned unchanged in the
connection dict and re-persisted re-encrypted — while the access token and
expiry are replaced; the re-persist, however, also resets the stored
`last_sync` to NULL, because `save_bank_connection` replaces the whole row. -/
theorem refresh_without_new_refresh_token_keeps_old (key : Nat)
    (resp : TokenResponse) (now : Int) (db : DB) (cid : String)
    (connection : ConnectionRow) (rt newAccess : String)
    (hconn : get_bank_connection key db cid = some connection)
    (hrt : connection.refresh_token = some rt) (hrtne : rt ≠ "")
    (hat : resp.access_token = some newAccess) (hatne : newAccess ≠ "")
    (hnew : resp.refresh_token = none) :
    refresh_connection_token key (some resp) now db cid =
      (some { connection with
         access_token := some newAccess
         refresh_token := some rt
         token_expiry := expiryOf resp.expires_in now },
       save_bank_connection key db connection.user_id cid connection.provider
         newAccess (some rt) (expiryOf resp.expires_in now)) ∧
    ∃ row, row ∈ (refresh_connection_token key (some resp) now db
        cid).2.connections ∧
      row.connection_id = cid ∧ row.refresh_token = some (encrypt key rt) ∧
      row.access_token = some (encrypt key newAccess) ∧ row.last_sync = none := by
  have h1 : refresh_connection_token key (some resp) now db cid =
      (some { connection with
         access_token := some newAccess
         refresh_token := some rt
         token_expiry := expiryOf resp.expires_in now },
       save_bank_connection key db connection.user_id cid connection.provider
         newAccess (some rt) (expiryOf resp.expires_in now)) := by
    simp [refresh_connection_token, hconn, hrt, hat, hnew, hrtne, hatne]
  refine ⟨h1, ?_⟩
  rw [h1]
  exact ⟨_, List.mem_append_right _ (List.mem_singleton_self _), rfl, rfl, rfl, rfl⟩

/-- C10 witness: the concrete refresh of `dbRefresh0` with response `resp0`
(no refresh token in the response). -/
theorem refresh_without_new_refresh_token_keeps_old_witness :
    refresh_connection_token 1 (some resp0) 5000 dbRefresh0 "c1" =
      (some { connDec0 with
         access_token := some "newat"
         refresh_token := some "rt0"
         token_expiry := expiryOf resp0.expires_in 5000 },
       save_bank_connection 1 dbRefresh0 connDec0.user_id "c1" connDec0.provider
         "newat" (some "rt0") (expiryOf resp0.expires_in 5000)) ∧
    ∃ row, row ∈ (refresh_connection_token 1 (some resp0) 5000 dbRefresh0
        "c1").2.connections ∧
      row.connection_id = "c1" ∧ row.refresh_token = some (encrypt 1 "rt0") ∧
      row.access_token = some (encrypt 1 "newat") ∧ row.last_sync = none :=
  refresh_without_new_refresh_token_keeps_old 1 resp0 5000 dbRefresh0 "c1" connDec0
    "rt0" "newat" (by decide) (by decide) (by decide) (by decide) (by decide)
    (by decide)

end FinDash
